import Mathlib

/-!
# AP_BattMonitor_FuelLevel_Analog — shallow embedding

Shallow embedding of `libraries/AP_BattMonitor/AP_BattMonitor_FuelLevel_Analog.cpp`
(the analog fuel-level battery-monitor backend) and the external contracts it
relies on.  `float` arithmetic is idealised as exact rational arithmetic `ℚ`;
the `uint32_t` microsecond clock values are natural numbers reduced modulo
`2 ^ 32` with C unsigned wraparound subtraction.

The driver code under `src/` is the authority for the estimator itself.  The
low-pass filter (`Filter/LowPassFilter.*`), the HAL analog-channel factory
(`hal.analogin->channel`) and the framework-owned initial state record are not
under `src/`; those are modelled from the specification and carry a
`Modelled from the spec:` doc comment.
-/

namespace FuelLevelAnalog

/-- Modulus of the `uint32_t` type used for microsecond timestamps. -/
def U32_MOD : ℕ := 2 ^ 32

/-- C unsigned 32-bit wraparound subtraction `a - b` (both operands reduced
modulo `2 ^ 32`), as performed by `tnow - _state.last_time_micros`. -/
def u32_sub (a b : ℕ) : ℕ := (a % U32_MOD + (U32_MOD - b % U32_MOD)) % U32_MOD

/-- The configuration set of the backend (`var_info[]` parameters plus the
externally owned pack capacity `_params._pack_capacity`).  Field defaults are
the `AP_GROUPINFO` defaults of the source. -/
structure FuelParams where
  pin : Int := -1
  fuel_level_empty_voltage : ℚ := 1 / 2
  fuel_level_voltage_mult : ℚ := 1 / 2
  fuel_level_filter_frequency : ℚ := 3 / 10
  fuel_fit_first_order_coeff : ℚ := 1
  fuel_fit_second_order_coeff : ℚ := 0
  fuel_fit_third_order_coeff : ℚ := 0
  fuel_fit_offset : ℚ := 0
  pack_capacity : ℚ := 0

/-- The fields of the shared `BattMonitor_State` record that `read()` touches. -/
structure BattState where
  healthy : Bool
  voltage : ℚ
  current_amps : ℚ
  consumed_mah : ℚ
  consumed_wh : ℚ
  last_time_micros : ℕ

/-- Modelled from the spec: the single-pole low-pass filter state
(`Filter/LowPassFilter.*` is not under `src/`).  One piece of signal state
(the previous filtered value) plus a first-call initialisation flag and the
configured cutoff frequency. -/
structure LowPassFilter where
  cutoff_freq : ℚ
  output : ℚ
  initialised : Bool

/-- The per-cycle environment inputs consumed by `read()`: the result of
`_analog_source->set_pin(_pin)`, the clock reading `AP_HAL::micros()` and the
averaged sample `_analog_source->voltage_average()`. -/
structure ReadIn where
  set_pin_ok : Bool
  tnow : ℕ
  raw_voltage : ℚ

/-- Rational stand-in for the floating-point constant `2 * pi` used by the
spec-modelled filter coefficient (the C code's `M_2PI` is itself a rational,
being a binary floating-point constant). -/
def two_pi : ℚ := 6283185307179586 / 1000000000000000

/-- Modelled from the spec: `LowPassFilter::apply(sample, dt)`
(`Filter/LowPassFilter.*` is not under `src/`).  On the very first call the
filter initialises its internal state to the incoming value and returns it;
afterwards it applies the exponential-smoothing relation
`alpha = dt / (dt + 1/(2*pi*fc))` clamped to `[0, 1]`.  Returns the filtered
value together with the updated filter state. -/
def LowPassFilter.apply (f : LowPassFilter) (sample : ℚ) (dt : ℚ) :
    ℚ × LowPassFilter :=
  if f.initialised = false then
    (sample, { f with output := sample, initialised := true })
  else
    let rc : ℚ := 1 / (two_pi * f.cutoff_freq)
    let alpha : ℚ := min 1 (max 0 (dt / (dt + rc)))
    let out : ℚ := f.output + (sample - f.output) * alpha
    (out, { f with output := out })

/-- The cubic polynomial-fit evaluation of `read()` (source lines 131-135):
`c3*v^3 + c2*v^2 + c1*v + c0`, written with the source's repeated products. -/
def polyFit (c3 c2 c1 c0 v : ℚ) : ℚ :=
  c3 * v * v * v + c2 * v * v + c1 * v + c0

/-- The calibrated ("effective") voltage computed by `read()` from the raw
averaged sample, using the four configured fit coefficients. -/
def calibrated_voltage (p : FuelParams) (raw : ℚ) : ℚ :=
  polyFit p.fuel_fit_third_order_coeff p.fuel_fit_second_order_coeff
    p.fuel_fit_first_order_coeff p.fuel_fit_offset raw

/-- The elapsed time handed to the filter by `read()`:
`float(dt_us) * 1.0e-6f` where `dt_us = tnow - _state.last_time_micros`
(uint32 wraparound subtraction, source lines 124-125 and 137). -/
def dt_seconds (st : BattState) (inp : ReadIn) : ℚ :=
  (u32_sub inp.tnow st.last_time_micros : ℚ) * (1 / 1000000)

/-- The filtered voltage produced by this cycle's filter step
(`_voltage_filter.apply(voltage, float(dt_us) * 1.0e-6f)`, source line 137). -/
def filtered_voltage_of (p : FuelParams) (filt : LowPassFilter)
    (st : BattState) (inp : ReadIn) : ℚ :=
  (filt.apply (calibrated_voltage p inp.raw_voltage) (dt_seconds st inp)).1

/-- The `voltage_used` selection of `read()` (source line 142): the filtered
value when the configured filter cutoff frequency is `>= 0`, the unfiltered
calibrated value otherwise. -/
def voltage_used_of (p : FuelParams) (filt : LowPassFilter)
    (st : BattState) (inp : ReadIn) : ℚ :=
  if 0 ≤ p.fuel_level_filter_frequency then filtered_voltage_of p filt st inp
  else calibrated_voltage p inp.raw_voltage

/-- `AP_BattMonitor_FuelLevel_Analog::read()` (source lines 111-161).
`analog_source_is_null` is the construction-time fact
`_analog_source == nullptr`; the per-cycle hardware/clock inputs are `inp`.
Returns the updated shared state record and the updated filter state. -/
def read (p : FuelParams) (analog_source_is_null : Bool)
    (filt : LowPassFilter) (st : BattState) (inp : ReadIn) :
    BattState × LowPassFilter :=
  if analog_source_is_null then (st, filt)
  else if inp.set_pin_ok = false then ({ st with healthy := false }, filt)
  else
    let used_frac : ℚ :=
      1 - (voltage_used_of p filt st inp - p.fuel_level_empty_voltage) *
            p.fuel_level_voltage_mult
    ({ st with
        healthy := true
        voltage := filtered_voltage_of p filt st inp
        consumed_mah := used_frac * p.pack_capacity
        current_amps := 0
        consumed_wh := used_frac * p.pack_capacity
        last_time_micros := inp.tnow % U32_MOD },
      (filt.apply (calibrated_voltage p inp.raw_voltage) (dt_seconds st inp)).2)

/-- The constructor's filter setup (source line 105):
`set_cutoff_frequency((_fuel_level_filter_frequency >= 0) ? _fuel_level_filter_frequency : 0.3f)`,
with the filter signal state not yet initialised. -/
def init_voltage_filter (p : FuelParams) : LowPassFilter :=
  { cutoff_freq :=
      if 0 ≤ p.fuel_level_filter_frequency then p.fuel_level_filter_frequency
      else 3 / 10
    output := 0
    initialised := false }

/-- Modelled from the spec: whether `hal.analogin->channel(_pin)` (source
line 101, HAL code not under `src/`) returns a null handle.  Per the spec a
negative/absent pin means no analog channel is bound (feature disabled). -/
def channel_is_null (pin : Int) : Bool := decide (pin < 0)

/-- Modelled from the spec: the shared state record is created zeroed by the
surrounding framework at construction; in particular the first cycle computes
its elapsed time from the uninitialised `last_time_micros` baseline of `0`. -/
def initState : BattState :=
  { healthy := false
    voltage := 0
    current_amps := 0
    consumed_mah := 0
    consumed_wh := 0
    last_time_micros := 0 }

/-- Whether a cycle is a successful one: the analog source is bound and the
channel selection succeeded. -/
def cycle_succeeds (analog_source_is_null : Bool) (inp : ReadIn) : Bool :=
  !analog_source_is_null && inp.set_pin_ok

/-- Run a sequence of `read()` cycles, threading the filter state and the
shared state record. -/
def runReads (p : FuelParams) (analog_source_is_null : Bool) :
    LowPassFilter → BattState → List ReadIn → BattState × LowPassFilter
  | filt, st, [] => (st, filt)
  | filt, st, inp :: rest =>
      let r := read p analog_source_is_null filt st inp
      runReads p analog_source_is_null r.2 r.1 rest

/-- The (reduced) clock value of the most recent successful cycle of a
sequence of inputs, if any. -/
def last_success_time (analog_source_is_null : Bool) :
    List ReadIn → Option ℕ
  | [] => none
  | inp :: rest =>
      match last_success_time analog_source_is_null rest with
      | some t => some t
      | none =>
          if cycle_succeeds analog_source_is_null inp then
            some (inp.tnow % U32_MOD)
          else none

/-- Example configuration: identity cubic calibration, filter disabled
(cutoff `-1`), empty voltage `0.5`, multiplier `0.5`, capacity `10000`. -/
def pEx : FuelParams :=
  { pin := 0
    fuel_level_empty_voltage := 1 / 2
    fuel_level_voltage_mult := 1 / 2
    fuel_level_filter_frequency := -1
    fuel_fit_first_order_coeff := 1
    fuel_fit_second_order_coeff := 0
    fuel_fit_third_order_coeff := 0
    fuel_fit_offset := 0
    pack_capacity := 10000 }

/-- Example filter state: already initialised, holding `5`, at the `0.3` Hz
default pole. -/
def fEx : LowPassFilter := { cutoff_freq := 3 / 10, output := 5, initialised := true }

/-- Example prior shared state with distinctive field values. -/
def stEx : BattState :=
  { healthy := true
    voltage := 7
    current_amps := 0
    consumed_mah := 42
    consumed_wh := 42
    last_time_micros := 123 }

theorem u32_sub_zero (t : ℕ) : u32_sub t 0 = t % U32_MOD := by
  simp [u32_sub, U32_MOD]

theorem read_fail_eq (p : FuelParams) (filt : LowPassFilter) (st : BattState)
    (inp : ReadIn) (h : inp.set_pin_ok = false) :
    read p false filt st inp = ({ st with healthy := false }, filt) := by
  simp [read, h]

theorem read_success_eq (p : FuelParams) (filt : LowPassFilter) (st : BattState)
    (inp : ReadIn) (h : inp.set_pin_ok = true) :
    read p false filt st inp =
      ({ st with
          healthy := true
          voltage := filtered_voltage_of p filt st inp
          consumed_mah :=
            (1 - (voltage_used_of p filt st inp - p.fuel_level_empty_voltage) *
                p.fuel_level_voltage_mult) * p.pack_capacity
          current_amps := 0
          consumed_wh :=
            (1 - (voltage_used_of p filt st inp - p.fuel_level_empty_voltage) *
                p.fuel_level_voltage_mult) * p.pack_capacity
          last_time_micros := inp.tnow % U32_MOD },
        (filt.apply (calibrated_voltage p inp.raw_voltage) (dt_seconds st inp)).2) := by
  simp [read, h]

theorem read_last_time_eq (p : FuelParams) (isNull : Bool) (filt : LowPassFilter)
    (st : BattState) (inp : ReadIn) :
    (read p isNull filt st inp).1.last_time_micros =
      if cycle_succeeds isNull inp then inp.tnow % U32_MOD
      else st.last_time_micros := by
  cases isNull <;> cases h : inp.set_pin_ok <;> simp [read, cycle_succeeds, h]

theorem runReads_last_time (p : FuelParams) (isNull : Bool) (inps : List ReadIn) :
    ∀ (filt : LowPassFilter) (st : BattState),
      (runReads p isNull filt st inps).1.last_time_micros =
        (last_success_time isNull inps).getD st.last_time_micros := by
  induction inps with
  | nil => intro filt st; rfl
  | cons inp rest ih =>
      intro filt st
      rw [runReads, last_success_time, ih, read_last_time_eq]
      rcases hrest : last_success_time isNull rest with _ | t
      · cases hs : cycle_succeeds isNull inp <;> simp [hs]
      · simp

/-- C1: on every successful read cycle the consumed-capacity output is exactly
`consumed_mah = (1 - (voltage_used - empty_voltage) * voltage_multiplier) * tank_capacity`,
with no clamping of the fuel-level fraction or the used fraction to `[0, 1]`:
there are configurations and sensor values for which `consumed_mah` is
negative, and others for which it exceeds `tank_capacity`. -/
theorem C1_consumed_capacity_formula :
    (∀ (p : FuelParams) (filt : LowPassFilter) (st : BattState) (inp : ReadIn),
        inp.set_pin_ok = true →
        (read p false filt st inp).1.consumed_mah =
          (1 - (voltage_used_of p filt st inp - p.fuel_level_empty_voltage) *
              p.fuel_level_voltage_mult) * p.pack_capacity)
    ∧ (∃ (p : FuelParams) (filt : LowPassFilter) (st : BattState) (inp : ReadIn),
        inp.set_pin_ok = true ∧ (read p false filt st inp).1.consumed_mah < 0)
    ∧ (∃ (p : FuelParams) (filt : LowPassFilter) (st : BattState) (inp : ReadIn),
        inp.set_pin_ok = true ∧
          p.pack_capacity < (read p false filt st inp).1.consumed_mah) := by
  refine ⟨fun p filt st inp h => by simp [read, h],
    ⟨pEx, init_voltage_filter pEx, initState, ⟨true, 0, 3⟩, rfl, ?_⟩,
    ⟨pEx, init_voltage_filter pEx, initState, ⟨true, 0, -3⟩, rfl, ?_⟩⟩ <;>
  norm_num [read, pEx, voltage_used_of, calibrated_voltage, polyFit,
    filtered_voltage_of, LowPassFilter.apply, init_voltage_filter, dt_seconds,
    u32_sub, initState, U32_MOD]

/-- C1 witness: the formula conjunct applied at a concrete successful cycle. -/
theorem C1_witness :
    (⟨true, 0, 3⟩ : ReadIn).set_pin_ok = true ∧
    (read pEx false (init_voltage_filter pEx) initState ⟨true, 0, 3⟩).1.consumed_mah =
      (1 - (voltage_used_of pEx (init_voltage_filter pEx) initState ⟨true, 0, 3⟩ -
          pEx.fuel_level_empty_voltage) * pEx.fuel_level_voltage_mult) *
        pEx.pack_capacity :=
  ⟨rfl, C1_consumed_capacity_formula.1 pEx (init_voltage_filter pEx) initState
    ⟨true, 0, 3⟩ rfl⟩

/-- C2: when the analog source is non-null but `set_pin` fails, `read()` sets
`healthy` to `false` and changes nothing else (the whole state record apart
from `healthy`, and the filter state, are returned unchanged); and on any
cycle where selection succeeds, `healthy` is set to `true`. -/
theorem C2_set_pin_failure_only_health :
    (∀ (p : FuelParams) (filt : LowPassFilter) (st : BattState) (inp : ReadIn),
        inp.set_pin_ok = false →
        read p false filt st inp = ({ st with healthy := false }, filt))
    ∧ (∀ (p : FuelParams) (filt : LowPassFilter) (st : BattState) (inp : ReadIn),
        inp.set_pin_ok = true →
        (read p false filt st inp).1.healthy = true) := by
  refine ⟨fun p filt st inp h => by simp [read, h],
    fun p filt st inp h => by simp [read, h]⟩

/-- C2 witness: a concrete failed cycle leaves everything but `healthy`
unchanged, and a subsequent successful cycle restores `healthy = true`. -/
theorem C2_witness :
    (⟨false, 5000, 2⟩ : ReadIn).set_pin_ok = false ∧
    read pEx false fEx stEx ⟨false, 5000, 2⟩ = ({ stEx with healthy := false }, fEx) ∧
    (⟨true, 6000, 2⟩ : ReadIn).set_pin_ok = true ∧
    (read pEx false fEx { stEx with healthy := false } ⟨true, 6000, 2⟩).1.healthy = true :=
  ⟨rfl, C2_set_pin_failure_only_health.1 pEx fEx stEx ⟨false, 5000, 2⟩ rfl,
    rfl, C2_set_pin_failure_only_health.2 pEx fEx { stEx with healthy := false }
      ⟨true, 6000, 2⟩ rfl⟩

/-- C3: on every successful cycle the fuel-level computation uses the filtered
voltage when the configured cutoff is `≥ 0` and the unfiltered calibrated
voltage otherwise, while the state's `voltage` field is always the filtered
voltage; the constructor pins the filter pole at the `0.3` Hz default when the
configured cutoff is negative; and with a negative cutoff the voltage used and
the published `voltage` field can differ. -/
theorem C3_voltage_used_selection :
    (∀ (p : FuelParams) (filt : LowPassFilter) (st : BattState) (inp : ReadIn),
        inp.set_pin_ok = true →
        (read p false filt st inp).1.voltage = filtered_voltage_of p filt st inp)
    ∧ (∀ (p : FuelParams) (filt : LowPassFilter) (st : BattState) (inp : ReadIn),
        inp.set_pin_ok = true → 0 ≤ p.fuel_level_filter_frequency →
        (read p false filt st inp).1.consumed_mah =
          (1 - (filtered_voltage_of p filt st inp - p.fuel_level_empty_voltage) *
              p.fuel_level_voltage_mult) * p.pack_capacity)
    ∧ (∀ (p : FuelParams) (filt : LowPassFilter) (st : BattState) (inp : ReadIn),
        inp.set_pin_ok = true → p.fuel_level_filter_frequency < 0 →
        (read p false filt st inp).1.consumed_mah =
          (1 - (calibrated_voltage p inp.raw_voltage - p.fuel_level_empty_voltage) *
              p.fuel_level_voltage_mult) * p.pack_capacity)
    ∧ (∀ p : FuelParams, p.fuel_level_filter_frequency < 0 →
        (init_voltage_filter p).cutoff_freq = 3 / 10)
    ∧ (∃ (p : FuelParams) (filt : LowPassFilter) (st : BattState) (inp : ReadIn),
        inp.set_pin_ok = true ∧ p.fuel_level_filter_frequency < 0 ∧
          voltage_used_of p filt st inp ≠ (read p false filt st inp).1.voltage) := by
  refine ⟨fun p filt st inp h => by simp [read, h],
    fun p filt st inp h hf => by simp [read, h, voltage_used_of, hf],
    fun p filt st inp h hf => by simp [read, h, voltage_used_of, not_le.mpr hf],
    fun p hf => by simp [init_voltage_filter, not_le.mpr hf],
    ⟨pEx, fEx, initState, ⟨true, 0, 1⟩, rfl, by norm_num [pEx], ?_⟩⟩
  norm_num [read, pEx, fEx, voltage_used_of, calibrated_voltage, polyFit,
    filtered_voltage_of, LowPassFilter.apply, dt_seconds, u32_sub, initState,
    U32_MOD]

/-- C3 witness: the selection conjuncts applied at concrete cycles, for a
nonnegative and for a negative configured cutoff. -/
theorem C3_witness :
    (⟨true, 0, 1⟩ : ReadIn).set_pin_ok = true ∧
    pEx.fuel_level_filter_frequency < 0 ∧
    (read pEx false fEx stEx ⟨true, 0, 1⟩).1.voltage =
      filtered_voltage_of pEx fEx stEx ⟨true, 0, 1⟩ ∧
    (read pEx false fEx stEx ⟨true, 0, 1⟩).1.consumed_mah =
      (1 - (calibrated_voltage pEx 1 - pEx.fuel_level_empty_voltage) *
          pEx.fuel_level_voltage_mult) * pEx.pack_capacity ∧
    (init_voltage_filter pEx).cutoff_freq = 3 / 10 :=
  ⟨rfl, by norm_num [pEx],
    C3_voltage_used_selection.1 pEx fEx stEx ⟨true, 0, 1⟩ rfl,
    C3_voltage_used_selection.2.2.1 pEx fEx stEx ⟨true, 0, 1⟩ rfl (by norm_num [pEx]),
    C3_voltage_used_selection.2.2.2.1 pEx (by norm_num [pEx])⟩

/-- C4: with the pin configured negative the analog channel is unbound
(spec-modelled HAL behavior), and `read()` is silently inert on every call:
no state field is mutated and the health flag is unchanged. -/
theorem C4_disabled_pin_inert :
    ∀ (p : FuelParams), p.pin < 0 →
      ∀ (filt : LowPassFilter) (st : BattState) (inp : ReadIn),
        read p (channel_is_null p.pin) filt st inp = (st, filt) := by
  intro p hp filt st inp
  simp [channel_is_null, hp, read]

/-- C4 witness: the default configuration (pin `-1`) is inert at a concrete
call. -/
theorem C4_witness :
    ({} : FuelParams).pin < 0 ∧
    read {} (channel_is_null ({} : FuelParams).pin) fEx stEx ⟨true, 5000, 2⟩ =
      (stEx, fEx) :=
  ⟨by norm_num, C4_disabled_pin_inert {} (by norm_num) fEx stEx ⟨true, 5000, 2⟩⟩

/-- C5 counterexample: on the first successful read after construction
(zeroed state baseline, clock at `1000000` µs) the elapsed time handed to the
filter is `1` second, not zero — the code subtracts the uninitialised
`last_time_micros` baseline from the clock instead of forcing a zero dt. -/
theorem C5_counterexample :
    cycle_succeeds false ⟨true, 1000000, 0⟩ = true ∧
    initState.last_time_micros = 0 ∧
    dt_seconds initState ⟨true, 1000000, 0⟩ = 1 ∧ (1 : ℚ) ≠ 0 := by
  refine ⟨rfl, rfl, ?_, one_ne_zero⟩
  norm_num [dt_seconds, u32_sub, initState, U32_MOD]

/-- C5 (amended): on the first successful read after construction the elapsed
time used for the filter step is the wraparound difference between the clock
and the zero baseline — i.e. the clock reading itself, possibly arbitrarily
large — not zero; nevertheless the filter initialises its internal state to
the incoming calibrated value on its very first call, so the published
filtered voltage equals the calibrated voltage exactly on that cycle. -/
theorem C5_first_read_filter_passthrough :
    (∀ (st : BattState) (inp : ReadIn), st.last_time_micros = 0 →
        dt_seconds st inp = ((inp.tnow % U32_MOD : ℕ) : ℚ) * (1 / 1000000))
    ∧ (∀ (p : FuelParams) (inp : ReadIn), inp.set_pin_ok = true →
        (read p false (init_voltage_filter p) initState inp).1.voltage =
          calibrated_voltage p inp.raw_voltage) := by
  constructor
  · intro st inp h
    rw [dt_seconds, h, u32_sub_zero]
  · intro p inp h
    simp [read, h, filtered_voltage_of, LowPassFilter.apply, init_voltage_filter]

/-- C5 witness: both conjuncts applied at a concrete first cycle. -/
theorem C5_witness :
    initState.last_time_micros = 0 ∧
    dt_seconds initState ⟨true, 1000000, 2⟩ = ((1000000 % U32_MOD : ℕ) : ℚ) * (1 / 1000000) ∧
    (⟨true, 1000000, 2⟩ : ReadIn).set_pin_ok = true ∧
    (read pEx false (init_voltage_filter pEx) initState ⟨true, 1000000, 2⟩).1.voltage =
      calibrated_voltage pEx 2 :=
  ⟨rfl, C5_first_read_filter_passthrough.1 initState ⟨true, 1000000, 2⟩ rfl,
    rfl, C5_first_read_filter_passthrough.2 pEx ⟨true, 1000000, 2⟩ rfl⟩

/-- C6: with the calibration coefficients at the degenerate configuration
`c3 = 0, c2 = 0, c1 = 1, c0 = 0`, the polynomial-fit evaluation returns its
input unchanged, for every raw voltage. -/
theorem C6_identity_calibration :
    (∀ v : ℚ, polyFit 0 0 1 0 v = v)
    ∧ (∀ (p : FuelParams) (v : ℚ),
        p.fuel_fit_third_order_coeff = 0 → p.fuel_fit_second_order_coeff = 0 →
        p.fuel_fit_first_order_coeff = 1 → p.fuel_fit_offset = 0 →
        calibrated_voltage p v = v) := by
  refine ⟨fun v => by simp [polyFit], fun p v h3 h2 h1 h0 => ?_⟩
  simp [calibrated_voltage, polyFit, h3, h2, h1, h0]

/-- C6 witness: the identity configuration evaluated at a concrete voltage. -/
theorem C6_witness :
    pEx.fuel_fit_third_order_coeff = 0 ∧ pEx.fuel_fit_second_order_coeff = 0 ∧
    pEx.fuel_fit_first_order_coeff = 1 ∧ pEx.fuel_fit_offset = 0 ∧
    calibrated_voltage pEx 3 = 3 :=
  ⟨rfl, rfl, rfl, rfl, C6_identity_calibration.2 pEx 3 rfl rfl rfl rfl⟩

/-- C7: `last_time_micros` is written only on successful cycles, where it is
set to the (reduced) clock reading; it advances forward when the clock does;
on a failed or disabled cycle it is unchanged; and after any sequence of
`read()` calls it equals either its initial value or the clock value of the
most recent successful cycle. -/
theorem C7_last_time_micros_invariant :
    (∀ (p : FuelParams) (isNull : Bool) (filt : LowPassFilter) (st : BattState)
        (inp : ReadIn), cycle_succeeds isNull inp = true →
        (read p isNull filt st inp).1.last_time_micros = inp.tnow % U32_MOD)
    ∧ (∀ (p : FuelParams) (isNull : Bool) (filt : LowPassFilter) (st : BattState)
        (inp : ReadIn), cycle_succeeds isNull inp = false →
        (read p isNull filt st inp).1.last_time_micros = st.last_time_micros)
    ∧ (∀ (p : FuelParams) (isNull : Bool) (filt : LowPassFilter) (st : BattState)
        (inp : ReadIn), cycle_succeeds isNull inp = true →
        st.last_time_micros ≤ inp.tnow → inp.tnow < U32_MOD →
        st.last_time_micros ≤ (read p isNull filt st inp).1.last_time_micros)
    ∧ (∀ (p : FuelParams) (isNull : Bool) (filt : LowPassFilter) (st : BattState)
        (inps : List ReadIn),
        (runReads p isNull filt st inps).1.last_time_micros =
          (last_success_time isNull inps).getD st.last_time_micros) := by
  refine ⟨fun p isNull filt st inp h => by rw [read_last_time_eq, if_pos h],
    fun p isNull filt st inp h => by
      rw [read_last_time_eq, if_neg (by simp [h])],
    fun p isNull filt st inp h hle hlt => ?_,
    fun p isNull filt st inps => runReads_last_time p isNull inps filt st⟩
  rw [read_last_time_eq, if_pos h, Nat.mod_eq_of_lt hlt]
  exact hle

/-- C7 witness: the single-cycle and sequence characterizations applied at
concrete cycles (one success, one failure, then a two-cycle sequence whose
final timestamp is the last successful cycle's clock). -/
theorem C7_witness :
    cycle_succeeds false ⟨true, 5000, 2⟩ = true ∧
    stEx.last_time_micros ≤ 5000 ∧ 5000 < U32_MOD ∧
    stEx.last_time_micros ≤ (read pEx false fEx stEx ⟨true, 5000, 2⟩).1.last_time_micros ∧
    (runReads pEx false fEx stEx [⟨true, 5000, 2⟩, ⟨false, 9000, 2⟩]).1.last_time_micros =
      (last_success_time false [⟨true, 5000, 2⟩, ⟨false, 9000, 2⟩]).getD
        stEx.last_time_micros :=
  ⟨rfl, by norm_num [stEx], by norm_num [U32_MOD],
    C7_last_time_micros_invariant.2.2.1 pEx false fEx stEx ⟨true, 5000, 2⟩ rfl
      (by norm_num [stEx]) (by norm_num [U32_MOD]),
    C7_last_time_micros_invariant.2.2.2 pEx false fEx stEx
      [⟨true, 5000, 2⟩, ⟨false, 9000, 2⟩]⟩

/-- C8: on every successful cycle `read()` writes `current_amps` as exactly
zero and writes `consumed_wh` equal to `consumed_mah`. -/
theorem C8_current_zero_wh_mirrors_mah :
    ∀ (p : FuelParams) (filt : LowPassFilter) (st : BattState) (inp : ReadIn),
      inp.set_pin_ok = true →
      (read p false filt st inp).1.current_amps = 0 ∧
      (read p false filt st inp).1.consumed_wh =
        (read p false filt st inp).1.consumed_mah := by
  intro p filt st inp h
  constructor <;> simp [read, h]

/-- C8 witness: applied at a concrete successful cycle. -/
theorem C8_witness :
    (⟨true, 5000, 2⟩ : ReadIn).set_pin_ok = true ∧
    (read pEx false fEx stEx ⟨true, 5000, 2⟩).1.current_amps = 0 ∧
    (read pEx false fEx stEx ⟨true, 5000, 2⟩).1.consumed_wh =
      (read pEx false fEx stEx ⟨true, 5000, 2⟩).1.consumed_mah :=
  ⟨rfl, C8_current_zero_wh_mirrors_mah pEx fEx stEx ⟨true, 5000, 2⟩ rfl⟩

/-- C9: when the channel handle obtained at construction is null, `read()`
returns immediately for every configuration (any pin value), mutating neither
the state record (including `healthy`) nor the filter state: a null handle on
an enabled pin is indistinguishable from the disabled case, because the guard
tests the handle, not the pin's sign. -/
theorem C9_null_source_inert :
    ∀ (p : FuelParams) (filt : LowPassFilter) (st : BattState) (inp : ReadIn),
      read p true filt st inp = (st, filt) := by
  intro p filt st inp
  simp [read]

/-- C10: `read()` is deterministic — two executions from equal prior shared
state, equal filter state, equal configuration, and an environment supplying
the same channel-selection outcome, the same clock reading and the same raw
sample, produce equal results. -/
theorem C10_read_deterministic :
    ∀ (p₁ p₂ : FuelParams) (n₁ n₂ : Bool) (f₁ f₂ : LowPassFilter)
      (s₁ s₂ : BattState) (i₁ i₂ : ReadIn),
      p₁ = p₂ → n₁ = n₂ → f₁ = f₂ → s₁ = s₂ →
      i₁.set_pin_ok = i₂.set_pin_ok → i₁.tnow = i₂.tnow →
      i₁.raw_voltage = i₂.raw_voltage →
      read p₁ n₁ f₁ s₁ i₁ = read p₂ n₂ f₂ s₂ i₂ := by
  intro p₁ p₂ n₁ n₂ f₁ f₂ s₁ s₂ i₁ i₂ hp hn hf hs h1 h2 h3
  cases i₁
  cases i₂
  cases hp
  cases hn
  cases hf
  cases hs
  simp only at h1 h2 h3
  rw [h1, h2, h3]

/-- C10 witness: applied at a concrete pair of identical executions. -/
theorem C10_witness :
    pEx = pEx ∧ fEx = fEx ∧ stEx = stEx ∧
    read pEx false fEx stEx ⟨true, 5000, 2⟩ = read pEx false fEx stEx ⟨true, 5000, 2⟩ :=
  ⟨rfl, rfl, rfl,
    C10_read_deterministic pEx pEx false false fEx fEx stEx stEx
      ⟨true, 5000, 2⟩ ⟨true, 5000, 2⟩ rfl rfl rfl rfl rfl rfl rfl⟩

end FuelLevelAnalog
